import Mathlib

/-
Verification of the RAG chatbot pipeline of this repository.

JavaScript strings are modelled as lists of UTF-16 code points (`JStr`);
the helper `js` converts a Lean string literal to that representation.
External network calls (the OpenAI chat-completion call) are modelled as
oracles of type `GenCall → Except Unit JStr`: the embedded code decides
what to do with the oracle outcome exactly as the JavaScript does with
the awaited promise (a thrown error corresponds to `Except.error`).
-/

/-- A JavaScript string, as its sequence of code points. -/
abbrev JStr := List Nat

/-- Conversion from a Lean string literal to the JavaScript string model. -/
def js (s : String) : JStr := s.data.map Char.toNat

/-- Embedding of JavaScript `String.prototype.toLowerCase` on one code
point (ASCII range, the only range exercised by this code base). -/
def jsLowerCode (n : Nat) : Nat := if 65 ≤ n ∧ n ≤ 90 then n + 32 else n

/-- Embedding of `s.toLowerCase()`. -/
def toLowerCase (s : JStr) : JStr := s.map jsLowerCode

/-- Embedding of `s.split` on a single space (single-space separator, empty segments
kept, the empty string splitting to one empty segment). -/
def splitOnSpace : JStr → List JStr
  | [] => [[]]
  | c :: rest =>
    if c = 32 then [] :: splitOnSpace rest
    else
      match splitOnSpace rest with
      | [] => [[c]]
      | seg :: segs => (c :: seg) :: segs

/-- Embedding of `haystack.includes(needle)`: `needle` occurs as a
contiguous segment of `haystack` (the empty needle always occurs). -/
def includes (haystack needle : JStr) : Bool :=
  decide (needle <:+: haystack)

/-- One entry of the in-memory knowledge base of
`stock-d-tax/apps/api/services/openaiService.js`. -/
structure KDoc where
  category : JStr
  content : JStr
  deriving DecidableEq

/-- The global in-memory knowledge-base list `taxKnowledgeBase` of
`openaiService.js`, verbatim. -/
def taxKnowledgeBase : List KDoc :=
  [⟨js "국내주식 양도소득세",
    js "국내주식 양도소득세는 분리과세로 15.4%입니다. 2,000만원 이하는 15.4%, 초과분은 종합소득세율이 적용됩니다. 종합소득세율은 소득에 따라 6.6%~49.5%까지 적용됩니다."⟩,
   ⟨js "해외주식 양도소득세",
    js "해외주식 양도소득세는 22%로 국내주식보다 높습니다. 해외주식은 종합과세로 처리되며, 다른 소득과 합산하여 과세됩니다."⟩,
   ⟨js "배당소득세",
    js "배당소득세는 15.4%입니다. 배당소득은 분리과세로 처리되며, 연간 배당소득이 2,000만원 이하인 경우 15.4%가 적용됩니다."⟩,
   ⟨js "세금 신고",
    js "주식 양도소득세는 매년 5월에 종합소득세 신고와 함께 신고합니다. 증권사에서 발급하는 거래내역서를 준비해야 합니다."⟩,
   ⟨js "절세 방법",
    js "주식 투자 절세 방법: 1) 손실과 이익을 상계하여 과세표준을 줄이기, 2) 장기투자로 세율 혜택 받기, 3) 연말정산 시 손실공제 활용하기"⟩]

/-- The keywords of a question: lower-casing `userQuestion` and splitting it on spaces. -/
def questionKeywords (userQuestion : JStr) : List JStr :=
  splitOnSpace (toLowerCase userQuestion)

/-- The filter predicate of `findRelevantKnowledge`:
`keywords.some(keyword => doc.content.toLowerCase().includes(keyword) ||
doc.category.toLowerCase().includes(keyword))`. -/
def docMatches (keywords : List JStr) (doc : KDoc) : Bool :=
  keywords.any fun keyword =>
    includes (toLowerCase doc.content) keyword ||
    includes (toLowerCase doc.category) keyword

/-- The documents selected by `findRelevantKnowledge` for a question:
`taxKnowledgeBase.filter(...)`. -/
def relevantDocs (userQuestion : JStr) : List KDoc :=
  taxKnowledgeBase.filter (docMatches (questionKeywords userQuestion))

/-- Embedding of `Array.prototype.join(sep)`. -/
def joinSep (sep : JStr) : List JStr → JStr
  | [] => []
  | [x] => x
  | x :: y :: rest => x ++ sep ++ joinSep sep (y :: rest)

/-- The per-document rendering inside `findRelevantKnowledge`:
the template literal `${doc.category}: ${doc.content}`. -/
def formatDoc (doc : KDoc) : JStr := doc.category ++ js ": " ++ doc.content

/-- Embedding of `findRelevantKnowledge` of `openaiService.js`: keyword substring
matching of the question against the global knowledge base, joined with
blank lines. -/
def findRelevantKnowledge (userQuestion : JStr) : JStr :=
  joinSep (js "\n\n") ((relevantDocs userQuestion).map formatDoc)

/-- The fixed fallback text returned by the `catch` branch of
`generateResponse`. -/
def fallbackMessage : JStr :=
  js "죄송합니다. 일시적인 오류가 발생했습니다. 잠시 후 다시 시도해주세요."

/-- The part of the `systemPrompt` template literal before the
interpolated `${relevantKnowledge}`. -/
def promptHead : JStr :=
  js "당신은 주식 투자 세금 전문가입니다. 다음 세금 관련 지식을 바탕으로 사용자의 질문에 답변해주세요:\n\n"

/-- The part of the `systemPrompt` template literal after the
interpolated `${relevantKnowledge}`. -/
def promptTail : JStr :=
  js "\n\n답변 시 다음 규칙을 따라주세요:\n1. 정확하고 이해하기 쉽게 설명\n2. 구체적인 수치와 예시 제공\n3. 친근하고 도움이 되는 톤으로 답변\n4. 한국어로 답변"

/-- The `systemPrompt` built by `generateResponse`: the one template,
used unconditionally, with the retrieved knowledge interpolated. -/
def buildSystemPrompt (relevantKnowledge : JStr) : JStr :=
  promptHead ++ relevantKnowledge ++ promptTail

/-- One request to the external chat-completion model: the system prompt
and the user message passed in the `messages` array. -/
structure GenCall where
  systemPrompt : JStr
  userMessage : JStr
  deriving DecidableEq

/-- An oracle standing for `openai.chat.completions.create`: it either
yields the assistant text or fails (a rejected promise). -/
abbrev GenOracle := GenCall → Except Unit JStr

/-- The single model call `generateResponse` assembles for a user
message. -/
def genCallOf (userMessage : JStr) : GenCall :=
  ⟨buildSystemPrompt (findRelevantKnowledge userMessage), userMessage⟩

/-- Embedding of `generateResponse` of `openaiService.js`, instrumented with the list
of model calls it performs: it performs exactly the one call `genCallOf`,
returns the model text on success and `fallbackMessage` when the call
fails (the `catch` branch). -/
def generateResponseT (oracle : GenOracle) (userMessage : JStr) :
    JStr × List GenCall :=
  match oracle (genCallOf userMessage) with
  | Except.ok content => (content, [genCallOf userMessage])
  | Except.error _ => (fallbackMessage, [genCallOf userMessage])

/-- Embedding of `generateResponse` as its caller sees it: an async function whose
result is `Except.error` exactly when it throws. The `try`/`catch` body
turns every failure of the model call into a normal return of
`fallbackMessage`. -/
def generateResponse (oracle : GenOracle) (userMessage : JStr) :
    Except Unit JStr :=
  match oracle (genCallOf userMessage) with
  | Except.ok content => Except.ok content
  | Except.error _ => Except.ok fallbackMessage

/-- A JSON value as assembled by the Express handlers (only the shapes
this code produces are needed). -/
inductive JsVal where
  | str (s : JStr)
  | boolean (b : Bool)
  | obj (fields : List (JStr × JsVal))

/-- Field lookup in a JSON object literal, first binding wins. -/
def lookupField : List (JStr × JsVal) → JStr → Option JsVal
  | [], _ => none
  | (k, v) :: rest, key => if k = key then some v else lookupField rest key

/-- Field access on a JSON value: `none` on non-objects and missing
keys. -/
def objField : JsVal → JStr → Option JsVal
  | JsVal.obj fields, key => lookupField fields key
  | _, _ => none

/-- An HTTP response: the status code and the JSON body passed to
`res.status(...).json(...)` or `res.json(...)`. -/
structure HttpResponse where
  status : Nat
  body : JsVal

/-- The success body of the chatbot route:
`{success: true, data: {message: response, timestamp: ...}}`. -/
def successBody (response now : JStr) : JsVal :=
  JsVal.obj
    [(js "success", JsVal.boolean true),
     (js "data", JsVal.obj
        [(js "message", JsVal.str response),
         (js "timestamp", JsVal.str now)])]

/-- The 400 body of the chatbot route: an object with one `error` field. -/
def missingMessageBody : JsVal :=
  JsVal.obj [(js "error", JsVal.str (js "메시지가 필요합니다."))]

/-- The 500 body of the `catch` branch of the chatbot route. -/
def routeErrorBody : JsVal :=
  JsVal.obj [(js "error", JsVal.str (js "챗봇 응답 생성 중 오류가 발생했습니다."))]

/-- Embedding of the POST `/message` handler of
`stock-d-tax/apps/api/routes/chatbot.js`: a missing or empty (falsy)
`message` yields 400; otherwise `generateResponse` is awaited inside the
`try` block of the route, a normal return yields 200 with the success body, and a
thrown error reaches the `catch` and yields 500. `now` stands for
`new Date().toISOString()`. -/
def chatbotPostMessage (oracle : GenOracle) (message : Option JStr)
    (now : JStr) : HttpResponse :=
  match message with
  | none => ⟨400, missingMessageBody⟩
  | some msg =>
    if msg = [] then ⟨400, missingMessageBody⟩
    else
      match generateResponse oracle msg with
      | Except.ok response => ⟨200, successBody response now⟩
      | Except.error _ => ⟨500, routeErrorBody⟩

/-- One citation as the specification describes it; present in the model
of streaming payloads so that the treatment by the handler of such a field can
be stated. -/
structure Citation where
  doc_id : JStr
  sequence_index : Nat
  snippet : JStr
  deriving DecidableEq

/-- A successfully parsed streaming payload of
`rag_lab/web/util/websocket.js`: the handler reads `data.type`,
`data.content` and `data.message`; any further fields (such as
citations) are representable but are read by no branch. -/
structure ParsedMsg where
  type : JStr
  content : JStr
  message : JStr
  citations : List Citation
  deriving DecidableEq

/-- The callback invocation performed by `WebSocketClient.handleMessage`
for one incoming message: which consumer callback is invoked and with
which payload. `ignored` means no consumer callback is invoked. -/
inductive CallbackCall where
  | started
  | chunkCb (content : JStr)
  | doneCb
  | errorCb (message : JStr)
  | warned (msgType : JStr)
  | ignored
  deriving DecidableEq

/-- JavaScript whitespace (ASCII range) for `String.prototype.trim`. -/
def jsWhitespace (n : Nat) : Bool :=
  n = 32 || n = 9 || n = 10 || n = 13 || n = 11 || n = 12

/-- Embedding of `s.trim()`. -/
def trim (s : JStr) : JStr :=
  ((s.dropWhile jsWhitespace).reverse.dropWhile jsWhitespace).reverse

/-- Embedding of `WebSocketClient.handleMessage`: `parsed` is the
outcome of `JSON.parse(event.data)` (`none` when it throws) and `raw` is
`event.data` itself. The `switch` dispatches on `data.type`; the `catch`
delivers a raw string to `onChunk` only when its `trim()` is truthy. -/
def handleMessage (raw : JStr) (parsed : Option ParsedMsg) : CallbackCall :=
  match parsed with
  | some data =>
    if data.type = js "start" then CallbackCall.started
    else if data.type = js "chunk" then CallbackCall.chunkCb data.content
    else if data.type = js "done" then CallbackCall.doneCb
    else if data.type = js "error" then CallbackCall.errorCb data.message
    else CallbackCall.warned data.type
  | none =>
    if trim raw = [] then CallbackCall.ignored else CallbackCall.chunkCb raw

/-- Whether a callback invocation makes `sendChatMessage` disconnect the
socket (its `onDone` and `onError` wrappers call `wsClient.disconnect()`). -/
def isTerminal : CallbackCall → Bool
  | CallbackCall.doneCb => true
  | CallbackCall.errorCb _ => true
  | _ => false

/-- The sequence of callback invocations `sendChatMessage` delivers for a
sequence of incoming messages: each is dispatched by `handleMessage`, and
after a terminal invocation the client disconnects, so nothing further is
delivered. -/
def deliverTrace : List (JStr × Option ParsedMsg) → List CallbackCall
  | [] => []
  | (raw, parsed) :: rest =>
    let c := handleMessage raw parsed
    if isTerminal c then [c] else c :: deliverTrace rest

/-- Modelled from the spec: the sliding-window walk of the Chunker
(section 4.2), whose implementation is not among the source files. From
position `start` over text of length `total`, a window that reaches the
end of the text is emitted (possibly shorter than `size`) and the walk
stops; otherwise a full window is emitted and the walk advances by
`advance` = chunk_size - chunk_overlap. `fuel` bounds the recursion and
is sufficient whenever it is at least `total - start` and `advance` is
positive. -/
def splitSpansAux (size advance : Nat) : Nat → Nat → Nat → List (Nat × Nat)
  | 0, _, _ => []
  | fuel + 1, start, total =>
    if total ≤ start + size then [(start, total)]
    else (start, start + size) :: splitSpansAux size advance fuel (start + advance) total

/-- Modelled from the spec: the chunk spans produced by
`split(text, chunk_size, chunk_overlap)` for a text of length `textLen`
(section 4.2: empty text yields an empty sequence, otherwise the sliding
window walk from offset 0). -/
def splitSpans (textLen size overlap : Nat) : List (Nat × Nat) :=
  if textLen = 0 then [] else splitSpansAux size (size - overlap) textLen 0 textLen

/-- Modelled from the spec: `split` of the Chunker, pairing each span
with the text slice it covers. -/
def split (text : JStr) (size overlap : Nat) : List (Nat × Nat × JStr) :=
  (splitSpans text.length size overlap).map
    fun p => (p.1, p.2, (text.drop p.1).take (p.2 - p.1))

/-- The shape of the span lists produced by the sliding-window walk from
`start` over a text of length `total`: either a single final window, or a
full window followed by the walk restarted `step` further. -/
inductive SpanChain (size step : Nat) : Nat → Nat → List (Nat × Nat) → Prop
  | last : ∀ start total, total ≤ start + size →
      SpanChain size step start total [(start, total)]
  | more : ∀ start total rest, start + size < total →
      SpanChain size step (start + step) total rest →
      SpanChain size step start total ((start, start + size) :: rest)

/-- A concrete incoming-message sequence for the streaming client: two
partial-text events followed by the terminal event. -/
def demoTrace : List (JStr × Option ParsedMsg) :=
  [(js "x", some ⟨js "chunk", js "부분 응답 1", [], []⟩),
   (js "y", some ⟨js "chunk", js "부분 응답 2", [], []⟩),
   (js "z", some ⟨js "done", [], [], []⟩)]

/-- An oracle whose model call always fails (a permanently unavailable
generation model). -/
def failingOracle : GenOracle := fun _ => Except.error ()

/-- An oracle that always answers with a fixed text. -/
def constOracle (text : JStr) : GenOracle := fun _ => Except.ok text

/-- Lower-casing one code point is idempotent. -/
theorem jsLowerCode_idem (n : Nat) : jsLowerCode (jsLowerCode n) = jsLowerCode n := by
  unfold jsLowerCode
  split
  · split <;> omega
  · rfl

/-- Lower-casing a string is idempotent. -/
theorem toLowerCase_idem (s : JStr) : toLowerCase (toLowerCase s) = toLowerCase s := by
  simp only [toLowerCase, List.map_map]
  exact List.map_congr_left fun a _ => jsLowerCode_idem a

/-- With positive advance and sufficient fuel, the sliding-window walk
produces a span chain. -/
theorem spanChain_of_aux (size step : Nat) (hstep : 0 < step) (hle : step ≤ size) :
    ∀ fuel start total, start < total → total - start ≤ fuel →
      SpanChain size step start total (splitSpansAux size step fuel start total) := by
  intro fuel
  induction fuel with
  | zero =>
    intro start total h1 h2
    exact absurd h2 (by omega)
  | succ f ih =>
    intro start total h1 h2
    unfold splitSpansAux
    split
    · exact SpanChain.last start total (by assumption)
    · rename_i hgt
      exact SpanChain.more start total _ (by omega)
        (ih (start + step) total (by omega) (by omega))

/-- A span chain is never empty. -/
theorem spanChain_ne_nil {size step start total spans}
    (h : SpanChain size step start total spans) : spans ≠ [] := by
  cases h <;> simp

/-- The first span of a chain starts at the walk start. -/
theorem spanChain_head {size step start total spans}
    (h : SpanChain size step start total spans) :
    spans.head?.map Prod.fst = some start := by
  cases h <;> rfl

/-- The last span of a chain ends exactly at the text length. -/
theorem spanChain_last_end {size step start total spans}
    (h : SpanChain size step start total spans) :
    spans.getLast?.map Prod.snd = some total := by
  induction h with
  | last s t _ => rfl
  | more s t rest hlt hchain ih =>
    have hne := spanChain_ne_nil hchain
    cases rest with
    | nil => exact absurd rfl hne
    | cons r rs =>
      rw [List.getLast?_cons_cons]
      exact ih

/-- Consecutive spans of a chain: the next span starts `step` further and
every non-final span is a full window of length `size`. -/
theorem spanChain_pair {size step start total spans}
    (h : SpanChain size step start total spans) :
    ∀ i p q, spans[i]? = some p → spans[i + 1]? = some q →
      q.1 = p.1 + step ∧ p.2 = p.1 + size := by
  induction h with
  | last s t hle =>
    intro i p q hp hq
    exfalso
    have hnone : ([(s, t)] : List (Nat × Nat))[i + 1]? = none := by
      rw [List.getElem?_eq_none]
      simp
    rw [hnone] at hq
    exact Option.noConfusion hq
  | more s t rest hlt hchain ih =>
    intro i p q hp hq
    cases i with
    | zero =>
      rw [List.getElem?_cons_zero] at hp
      rw [List.getElem?_cons_succ] at hq
      have hh := spanChain_head hchain
      cases hrest : rest with
      | nil => rw [hrest] at hq; exact Option.noConfusion hq
      | cons r rs =>
        rw [hrest] at hq hh
        rw [List.getElem?_cons_zero] at hq
        simp at hh hp hq
        subst hp
        subst hq
        constructor
        · simp [hh]
        · rfl
    | succ n =>
      rw [List.getElem?_cons_succ] at hp
      rw [List.getElem?_cons_succ] at hq
      exact ih n p q hp hq

/-- Every position of the text is covered by some span of the chain. -/
theorem spanChain_cover {size step start total spans} (hle : step ≤ size)
    (h : SpanChain size step start total spans) :
    ∀ x, start ≤ x → x < total → ∃ p, p ∈ spans ∧ p.1 ≤ x ∧ x < p.2 := by
  induction h with
  | last s t hst =>
    intro x hx1 hx2
    exact ⟨(s, t), List.mem_cons_self _ _, hx1, hx2⟩
  | more s t rest hlt hchain ih =>
    intro x hx1 hx2
    by_cases hx : x < s + size
    · exact ⟨(s, s + size), List.mem_cons_self _ _, hx1, hx⟩
    · obtain ⟨p, hp, h1, h2⟩ := ih x (by omega) hx2
      exact ⟨p, List.mem_cons_of_mem _ hp, h1, h2⟩

set_option maxRecDepth 40000 in
/-- C1 counterexample: retrieval is not an embedding similarity search
against a vector index. The knowledge store holds five documents, yet a
question sharing no keyword substring with any of them retrieves nothing
at all — a top-k similarity search over a non-empty index returns k
nearest chunks for every query, while keyword substring matching returns
the empty context here. -/
theorem C1_counterexample :
    taxKnowledgeBase.length = 5 ∧ findRelevantKnowledge (js "blockchain") = [] := by
  constructor
  · rfl
  · rfl

/-- C1 amended: for every question, the retrieval step selects context by
keyword substring matching against the global in-memory knowledge-base
list — a document is retrieved exactly when some whitespace-split,
lower-cased token of the question occurs as a substring of the
lower-cased content or category of that document; no question embedding
and no vector-index search is involved. -/
theorem C1_keyword_retrieval (q : JStr) (d : KDoc) :
    d ∈ relevantDocs q ↔
      d ∈ taxKnowledgeBase ∧
      ∃ kw ∈ questionKeywords q,
        kw <:+: toLowerCase d.content ∨ kw <:+: toLowerCase d.category := by
  simp [relevantDocs, List.mem_filter, docMatches, List.any_eq_true, includes,
    Bool.or_eq_true, decide_eq_true_eq]

/-- C3 counterexample: when the generation-model call fails permanently,
the answer operation performs exactly one model call — no retry, no
backoff — and immediately returns the apologetic fallback message. -/
theorem C3_counterexample :
    (generateResponseT failingOracle (js "세금 질문")).2.length = 1 ∧
    (generateResponseT failingOracle (js "세금 질문")).1 = fallbackMessage := by
  constructor
  · rfl
  · rfl

/-- C3 amended: when the external generation-model call fails, the answer
operation performs exactly one model call (no retries) and immediately
returns the apologetic fallback message instead of propagating the raw
error; a successful call returns the model text. -/
theorem C3_single_attempt_fallback (oracle : GenOracle) (userMessage : JStr) :
    (generateResponseT oracle userMessage).2 = [genCallOf userMessage] ∧
    (oracle (genCallOf userMessage) = Except.error () →
      (generateResponseT oracle userMessage).1 = fallbackMessage) ∧
    ∀ text, oracle (genCallOf userMessage) = Except.ok text →
      (generateResponseT oracle userMessage).1 = text := by
  cases h : oracle (genCallOf userMessage) with
  | error e => simp [generateResponseT, h]
  | ok content => simp [generateResponseT, h]

/-- Witness for C3 at a concrete failing oracle and question. -/
theorem C3_witness :
    (generateResponseT failingOracle (js "양도소득세 문의")).1 = fallbackMessage :=
  (C3_single_attempt_fallback failingOracle (js "양도소득세 문의")).2.1 rfl

set_option maxRecDepth 40000 in
/-- C4 counterexample: for a question whose retrieval returns zero
documents, the answer operation still calls the generation model, but
with the one ordinary prompt template wrapped around an empty context
block — no disclosure instruction is added — and it returns whatever the
model outputs, unchanged. -/
theorem C4_counterexample :
    findRelevantKnowledge (js "ailerons") = [] ∧
    generateResponseT (constOracle (js "임의의 모델 출력")) (js "ailerons") =
      (js "임의의 모델 출력", [⟨promptHead ++ promptTail, js "ailerons"⟩]) := by
  constructor
  · rfl
  · rfl

/-- C4 amended: for every question with empty retrieved context, the
answer operation silently builds the normal prompt around an empty
context block (the template head directly followed by the template tail),
invokes the generation model once with it, and returns the model output
as the message; there is no insufficient-context branch. -/
theorem C4_empty_context_normal_prompt (oracle : GenOracle) (msg text : JStr)
    (hctx : findRelevantKnowledge msg = [])
    (hok : oracle ⟨promptHead ++ promptTail, msg⟩ = Except.ok text) :
    generateResponseT oracle msg = (text, [⟨promptHead ++ promptTail, msg⟩]) := by
  have hcall : genCallOf msg = ⟨promptHead ++ promptTail, msg⟩ := by
    simp [genCallOf, buildSystemPrompt, hctx]
  simp [generateResponseT, hcall, hok]

set_option maxRecDepth 40000 in
/-- Witness for C4 at a concrete zero-context question. -/
theorem C4_witness :
    generateResponseT (constOracle (js "모의 응답")) (js "ailerons") =
      (js "모의 응답", [⟨promptHead ++ promptTail, js "ailerons"⟩]) :=
  C4_empty_context_normal_prompt (constOracle (js "모의 응답")) (js "ailerons")
    (js "모의 응답") (by rfl) rfl

/-- C7: for a fixed knowledge store and a fixed question, two successive
retrieval invocations return the same context in the same order, and the
returned documents keep the insertion order of the knowledge base (the
earlier-indexed document wins), since filtering preserves list order. -/
theorem C7_deterministic_ranking (q1 q2 : JStr) (h : q1 = q2) :
    findRelevantKnowledge q1 = findRelevantKnowledge q2 ∧
    relevantDocs q1 = relevantDocs q2 ∧
    List.Sublist (relevantDocs q1) taxKnowledgeBase := by
  subst h
  exact ⟨rfl, rfl, List.filter_sublist _⟩

/-- Witness for C7 at a concrete repeated question. -/
theorem C7_witness :
    findRelevantKnowledge (js "세금") = findRelevantKnowledge (js "세금") ∧
    relevantDocs (js "세금") = relevantDocs (js "세금") ∧
    List.Sublist (relevantDocs (js "세금")) taxKnowledgeBase :=
  C7_deterministic_ranking (js "세금") (js "세금") rfl

/-- C9: retrieval is case-insensitive — every question retrieves the same
context as its lower-cased form, because the question is lower-cased
before being split into keywords and lower-casing is idempotent. -/
theorem C9_case_insensitive (q : JStr) :
    findRelevantKnowledge (toLowerCase q) = findRelevantKnowledge q := by
  unfold findRelevantKnowledge relevantDocs questionKeywords
  rw [toLowerCase_idem]

/-- C8: the generation step is total with respect to generation-model
failures — it always returns normally, the chat route never reaches its
500 branch through a generation-model failure, and when the model call
fails the route responds 200 with the fallback text in the body. -/
theorem C8_total_no_500 (oracle : GenOracle) (msg now : JStr) (h : msg ≠ []) :
    (∀ m, ∃ s, generateResponse oracle m = Except.ok s) ∧
    (chatbotPostMessage oracle (some msg) now).status = 200 ∧
    (oracle (genCallOf msg) = Except.error () →
      chatbotPostMessage oracle (some msg) now =
        ⟨200, successBody fallbackMessage now⟩) := by
  refine ⟨?_, ?_, ?_⟩
  · intro m
    unfold generateResponse
    cases oracle (genCallOf m) with
    | ok content => exact ⟨content, rfl⟩
    | error e => exact ⟨fallbackMessage, rfl⟩
  · simp only [chatbotPostMessage]
    rw [if_neg h]
    unfold generateResponse
    cases oracle (genCallOf msg) with
    | ok content => rfl
    | error e => rfl
  · intro he
    simp only [chatbotPostMessage]
    rw [if_neg h]
    unfold generateResponse
    rw [he]

/-- Witness for C8 at a concrete failing oracle and non-empty message. -/
theorem C8_witness :
    chatbotPostMessage failingOracle (some (js "세금 문의")) (js "2025-01-01") =
      ⟨200, successBody fallbackMessage (js "2025-01-01")⟩ :=
  (C8_total_no_500 failingOracle (js "세금 문의") (js "2025-01-01")
    (by decide)).2.2 rfl

/-- C2 counterexample: a concrete successful call of the chat route
responds 200, but its body holds no citations field at all — neither at
the top level nor inside the data object. -/
theorem C2_counterexample :
    (chatbotPostMessage (constOracle (js "상담 답변")) (some (js "세금 질문"))
      (js "ts")).status = 200 ∧
    objField (chatbotPostMessage (constOracle (js "상담 답변"))
      (some (js "세금 질문")) (js "ts")).body (js "citations") = none ∧
    ((objField (chatbotPostMessage (constOracle (js "상담 답변"))
      (some (js "세금 질문")) (js "ts")).body (js "data")).bind
        fun d => objField d (js "citations")) = none := by
  refine ⟨rfl, rfl, rfl⟩

/-- C2 amended: every successful call of the chat route responds 200 with
a body whose data object carries the message and the timestamp, and no
citations sequence exists anywhere in the body — the route computes no
citations. -/
theorem C2_no_citations (oracle : GenOracle) (msg now : JStr) (h : msg ≠ []) :
    ∃ response,
      chatbotPostMessage oracle (some msg) now = ⟨200, successBody response now⟩ ∧
      objField (successBody response now) (js "citations") = none ∧
      ((objField (successBody response now) (js "data")).bind
        fun d => objField d (js "citations")) = none ∧
      ((objField (successBody response now) (js "data")).bind
        fun d => objField d (js "message")) = some (JsVal.str response) ∧
      ((objField (successBody response now) (js "data")).bind
        fun d => objField d (js "timestamp")) = some (JsVal.str now) := by
  simp only [chatbotPostMessage]
  rw [if_neg h]
  unfold generateResponse
  cases oracle (genCallOf msg) with
  | ok content => exact ⟨content, rfl, rfl, rfl, rfl, rfl⟩
  | error e => exact ⟨fallbackMessage, rfl, rfl, rfl, rfl, rfl⟩

/-- Witness for C2 at a concrete oracle, message and timestamp. -/
theorem C2_witness :
    ∃ response,
      chatbotPostMessage (constOracle (js "답변 텍스트")) (some (js "배당 문의"))
        (js "ts") = ⟨200, successBody response (js "ts")⟩ ∧
      objField (successBody response (js "ts")) (js "citations") = none ∧
      ((objField (successBody response (js "ts")) (js "data")).bind
        fun d => objField d (js "citations")) = none ∧
      ((objField (successBody response (js "ts")) (js "data")).bind
        fun d => objField d (js "message")) = some (JsVal.str response) ∧
      ((objField (successBody response (js "ts")) (js "data")).bind
        fun d => objField d (js "timestamp")) = some (JsVal.str (js "ts")) :=
  C2_no_citations (constOracle (js "답변 텍스트")) (js "배당 문의") (js "ts")
    (by decide)

/-- If the delivered callback sequence holds a completion invocation, it
is its last element: the client disconnects on the terminal event. -/
theorem deliverTrace_done_last (msgs : List (JStr × Option ParsedMsg)) :
    ∀ i, (deliverTrace msgs)[i]? = some CallbackCall.doneCb →
      i = (deliverTrace msgs).length - 1 := by
  induction msgs with
  | nil =>
    intro i hi
    simp [deliverTrace] at hi
  | cons hd tl ih =>
    obtain ⟨raw, parsed⟩ := hd
    intro i hi
    simp only [deliverTrace] at hi ⊢
    by_cases ht : isTerminal (handleMessage raw parsed) = true
    · rw [if_pos ht] at hi ⊢
      cases i with
      | zero => rfl
      | succ n => simp at hi
    · rw [if_neg ht] at hi ⊢
      cases i with
      | zero =>
        rw [List.getElem?_cons_zero] at hi
        injection hi with hc
        exact absurd (by rw [hc]; rfl) ht
      | succ n =>
        rw [List.getElem?_cons_succ] at hi
        have hn := ih n hi
        have hlen : n < (deliverTrace tl).length :=
          (List.getElem?_eq_some.mp hi).1
        simp only [List.length_cons]
        omega

/-- C6 counterexample: the terminal streaming event invokes a completion
callback that carries no payload at all — two terminal messages, one
holding a citations field and one holding none, are delivered
identically, so the terminal event cannot carry the final citations to
the consumer. -/
theorem C6_counterexample :
    handleMessage (js "d1") (some ⟨js "done", [], [],
      [⟨js "doc-1", 0, js "근거 문장"⟩]⟩) = CallbackCall.doneCb ∧
    handleMessage (js "d2") (some ⟨js "done", [], [], []⟩) =
      CallbackCall.doneCb := by
  constructor
  · rfl
  · rfl

/-- C6 amended: in streaming mode the client delivers partial-text events
in arrival order and, on the terminal event, invokes a payload-free
completion callback (no citations are carried) and disconnects, so the
terminal invocation follows every delivered partial-text invocation. -/
theorem C6_stream_delivery (msgs : List (JStr × Option ParsedMsg)) (i : Nat)
    (hi : i < (deliverTrace msgs).length)
    (hdone : (deliverTrace msgs).get ⟨i, hi⟩ = CallbackCall.doneCb) :
    i = (deliverTrace msgs).length - 1 ∧
    ∀ raw (d : ParsedMsg), d.type = js "done" →
      handleMessage raw (some d) = CallbackCall.doneCb := by
  constructor
  · rw [List.get_eq_getElem] at hdone
    apply deliverTrace_done_last
    rw [List.getElem?_eq_getElem hi, hdone]
  · intro raw d hd
    obtain ⟨t, c, m, cits⟩ := d
    have ht : t = js "done" := hd
    subst ht
    rfl

/-- Witness for C6 on a concrete trace of two partial-text events
followed by the terminal event. -/
theorem C6_witness : 2 = (deliverTrace demoTrace).length - 1 := by
  have hi : 2 < (deliverTrace demoTrace).length := by decide
  exact (C6_stream_delivery demoTrace 2 hi (by rfl)).1

/-- C10 counterexample: a whitespace-only payload is a non-empty string
and fails to parse as JSON (JSON.parse throws on it), yet the client
delivers it to no callback at all — its trim is empty, so the raw-string
fallback skips it — contradicting the claim that every non-empty
unparseable payload reaches the partial-text callback. -/
theorem C10_counterexample :
    js " " ≠ [] ∧ handleMessage (js " ") none = CallbackCall.ignored := by
  constructor
  · decide
  · rfl

/-- C10 amended: an unparseable payload whose trim is non-empty is
delivered raw to the partial-text callback (not dropped, no exception
escapes the handler), while a parsed payload whose type field is unknown
is ignored apart from a warning. A whitespace-only unparseable payload is
silently ignored. -/
theorem C10_raw_fallback (raw : JStr) (d : ParsedMsg)
    (h1 : trim raw ≠ [])
    (h2 : d.type ≠ js "start") (h3 : d.type ≠ js "chunk")
    (h4 : d.type ≠ js "done") (h5 : d.type ≠ js "error") :
    handleMessage raw none = CallbackCall.chunkCb raw ∧
    handleMessage raw (some d) = CallbackCall.warned d.type := by
  constructor
  · simp [handleMessage, h1]
  · simp [handleMessage, h2, h3, h4, h5]

/-- Witness for C10 at a concrete unparseable payload and a concrete
unknown-type payload. -/
theorem C10_witness :
    handleMessage (js "원시 텍스트") none = CallbackCall.chunkCb (js "원시 텍스트") ∧
    handleMessage (js "원시 텍스트") (some ⟨js "mystery", [], [], []⟩) =
      CallbackCall.warned (js "mystery") :=
  C10_raw_fallback (js "원시 텍스트") ⟨js "mystery", [], [], []⟩
    (by decide) (by decide) (by decide) (by decide) (by decide)

/-- C5: for every valid configuration (chunk_overlap < chunk_size) and
every text length, the chunk spans cover the whole text with no gaps and
no silent truncation — the walk starts at offset 0, the last span ends
exactly at the text length (a final window shorter than chunk_size is
still emitted), every consecutive pair of spans advances by
chunk_size - chunk_overlap, every non-final span is a full window, and
consecutive spans overlap by exactly chunk_overlap. -/
theorem C5_chunker_coverage (L size overlap : Nat) (hov : overlap < size) :
    (L = 0 → splitSpans L size overlap = []) ∧
    (0 < L →
      splitSpans L size overlap ≠ [] ∧
      (splitSpans L size overlap).head?.map Prod.fst = some 0 ∧
      (splitSpans L size overlap).getLast?.map Prod.snd = some L ∧
      (∀ i p q, (splitSpans L size overlap)[i]? = some p →
        (splitSpans L size overlap)[i + 1]? = some q →
        q.1 = p.1 + (size - overlap) ∧ p.2 = p.1 + size ∧
        p.2 - q.1 = overlap ∧ q.1 ≤ p.2) ∧
      (∀ x, x < L → ∃ p, p ∈ splitSpans L size overlap ∧ p.1 ≤ x ∧ x < p.2)) := by
  constructor
  · intro h0
    simp [splitSpans, h0]
  · intro hL
    have hstep : 0 < size - overlap := by omega
    have hle : size - overlap ≤ size := by omega
    have hchain : SpanChain size (size - overlap) 0 L
        (splitSpansAux size (size - overlap) L 0 L) :=
      spanChain_of_aux size (size - overlap) hstep hle L 0 L hL (by omega)
    have hsp : splitSpans L size overlap =
        splitSpansAux size (size - overlap) L 0 L := by
      rw [splitSpans, if_neg (by omega)]
    rw [hsp]
    refine ⟨spanChain_ne_nil hchain, spanChain_head hchain,
      spanChain_last_end hchain, ?_, ?_⟩
    · intro i p q hp hq
      obtain ⟨h1, h2⟩ := spanChain_pair hchain i p q hp hq
      exact ⟨h1, h2, by omega, by omega⟩
    · intro x hx
      exact spanChain_cover hle hchain x (Nat.zero_le x) hx

/-- Witness for C5 at a concrete valid configuration and text length. -/
theorem C5_witness : (1 : Nat) < 4 ∧ splitSpans 10 4 1 ≠ [] :=
  ⟨by decide, ((C5_chunker_coverage 10 4 1 (by decide)).2 (by decide)).1⟩
